import Mathlib

/-!
Verification development for the GamepadMotionHelpers library
(`GamepadMotion.hpp`, revision 4).

The C++ source is shallowly embedded here.  Float arithmetic is modelled as
exact arithmetic: the purely order/field-theoretic parts (the auto-calibrator,
the calibration store, the gravity bounding-box loop) are polymorphic over a
`LinearOrderedField` and are evaluated at `ℚ` for concrete runs, while the
parts that use `sqrtf`/`cosf`/`acosf`/`exp2f` (`Motion::Update` and its
helpers) are embedded over `ℝ` with `Real.sqrt`, `Real.cos`, `Real.arccos`
and `Real.rpow`.
-/

set_option maxHeartbeats 1000000

/-- 3-component vector, mirroring `GamepadMotionHelpers::Vec`. -/
structure Vec3 (α : Type) where
  x : α
  y : α
  z : α
deriving DecidableEq, Repr

/-- Quaternion, mirroring `GamepadMotionHelpers::Quat` (w, x, y, z). -/
structure QuatT (α : Type) where
  w : α
  x : α
  y : α
  z : α
deriving DecidableEq, Repr

/-- `Vec::Dot`. -/
def dotV {α : Type} [CommRing α] (a b : Vec3 α) : α :=
  a.x * b.x + a.y * b.y + a.z * b.z

/-- `Vec::Cross`. -/
def crossV {α : Type} [CommRing α] (a b : Vec3 α) : Vec3 α :=
  ⟨a.y * b.z - a.z * b.y, a.z * b.x - a.x * b.z, a.x * b.y - a.y * b.x⟩

/-- `Vec::operator+`. -/
def addV {α : Type} [CommRing α] (a b : Vec3 α) : Vec3 α :=
  ⟨a.x + b.x, a.y + b.y, a.z + b.z⟩

/-- `Vec::operator-` (binary). -/
def subV {α : Type} [CommRing α] (a b : Vec3 α) : Vec3 α :=
  ⟨a.x - b.x, a.y - b.y, a.z - b.z⟩

/-- `Vec::operator-` (unary negation). -/
def negV {α : Type} [CommRing α] (a : Vec3 α) : Vec3 α :=
  ⟨-a.x, -a.y, -a.z⟩

/-- `Vec::operator*` with a scalar. -/
def smulV {α : Type} [CommRing α] (a : Vec3 α) (c : α) : Vec3 α :=
  ⟨a.x * c, a.y * c, a.z * c⟩

/-- `Quat::operator*` (Hamilton product), exactly as written in the source. -/
def qmul {α : Type} [CommRing α] (l r : QuatT α) : QuatT α :=
  ⟨l.w * r.w - l.x * r.x - l.y * r.y - l.z * r.z,
   l.w * r.x + l.x * r.w + l.y * r.z - l.z * r.y,
   l.w * r.y - l.x * r.z + l.y * r.w + l.z * r.x,
   l.w * r.z + l.x * r.y - l.y * r.x + l.z * r.w⟩

/-- `Quat::Inverse` (conjugation; the source does not divide by the norm). -/
def qinv {α : Type} [CommRing α] (q : QuatT α) : QuatT α :=
  ⟨q.w, -q.x, -q.y, -q.z⟩

/-- Squared quaternion norm `w² + x² + y² + z²`. -/
def quatNormSq {α : Type} [CommRing α] (q : QuatT α) : α :=
  q.w * q.w + q.x * q.x + q.y * q.y + q.z * q.z

/-- `Vec::operator*=(const Quat&)`: `rhs * Quat(0, v) * rhs.Inverse()`,
keeping the vector part. -/
def rotV {α : Type} [CommRing α] (v : Vec3 α) (q : QuatT α) : Vec3 α :=
  let t := qmul (qmul q ⟨0, v.x, v.y, v.z⟩) (qinv q)
  ⟨t.x, t.y, t.z⟩

/-! ### The calibration store (`GamepadMotionHelpers::GyroCalibration`) -/

/-- `GamepadMotionHelpers::GyroCalibration`: accumulated sums and sample
count. `NumSamples` is an `int` in the source. -/
structure GyroCalib (α : Type) where
  X : α
  Y : α
  Z : α
  AccelMagnitude : α
  NumSamples : ℤ
deriving DecidableEq, Repr

/-- Zero-initialised calibration store (`GyroCalibration = {}`). -/
def gcInit {α : Type} [LinearOrderedField α] : GyroCalib α := ⟨0, 0, 0, 0, 0⟩

/-- `GamepadMotion::GetCalibratedSensor`: zero offsets when the sample count
is ≤ 0, otherwise the per-axis means `sum * (1 / NumSamples)`. -/
def getCalibratedSensor {α : Type} [LinearOrderedField α] (gc : GyroCalib α) :
    Vec3 α × α :=
  if gc.NumSamples ≤ 0 then (⟨0, 0, 0⟩, 0)
  else
    let inverseSamples : α := 1 / (gc.NumSamples : α)
    (⟨gc.X * inverseSamples, gc.Y * inverseSamples, gc.Z * inverseSamples⟩,
     gc.AccelMagnitude * inverseSamples)

/-- `GamepadMotion::SetCalibrationOffset`. -/
def setCalibrationOffset {α : Type} [LinearOrderedField α] (gc : GyroCalib α)
    (xOffset yOffset zOffset : α) (weight : ℤ) : GyroCalib α :=
  let mag : α :=
    if gc.NumSamples > 1 then gc.AccelMagnitude * ((weight : α) / (gc.NumSamples : α))
    else (weight : α)
  ⟨xOffset * (weight : α), yOffset * (weight : α), zOffset * (weight : α), mag, weight⟩

/-- `GamepadMotion::PushSensorSamples`. -/
def pushSensorSamples {α : Type} [LinearOrderedField α] (gc : GyroCalib α)
    (gyroX gyroY gyroZ accelMagnitude : α) : GyroCalib α :=
  ⟨gc.X + gyroX, gc.Y + gyroY, gc.Z + gyroZ,
   gc.AccelMagnitude + accelMagnitude, gc.NumSamples + 1⟩

/-! ### Real-valued primitives (`sqrtf`, `cosf`, `acosf`, `exp2f`) -/

/-- `Vec::Length`. -/
noncomputable def vlen (v : Vec3 ℝ) : ℝ :=
  Real.sqrt (v.x * v.x + v.y * v.y + v.z * v.z)

/-- `Vec::Normalize`: leaves the vector untouched when its length is zero,
otherwise scales by `1 / length`. -/
noncomputable def vnormalize (v : Vec3 ℝ) : Vec3 ℝ :=
  if vlen v = 0 then v else smulV v (1 / vlen v)

/-- The identity quaternion `(1, 0, 0, 0)`. -/
def qid : QuatT ℝ := ⟨1, 0, 0, 0⟩

/-- `Quat::Normalize`: scales the vector part so that the whole quaternion has
unit norm while keeping `w`; degenerate cases (`1 - w² ≤ 0` or zero-length
vector part) snap to the identity quaternion. -/
noncomputable def qnormalize (q : QuatT ℝ) : QuatT ℝ :=
  let length := Real.sqrt (q.x * q.x + q.y * q.y + q.z * q.z)
  let targetLength := 1 - q.w * q.w
  if targetLength ≤ 0 ∨ length ≤ 0 then qid
  else
    let fixFactor := Real.sqrt targetLength / length
    ⟨q.w, q.x * fixFactor, q.y * fixFactor, q.z * fixFactor⟩

/-- `GamepadMotionHelpers::AngleAxis`: `Quat(cos(angle/2), x, y, z)`
normalised. -/
noncomputable def angleAxis (inAngle inX inY inZ : ℝ) : QuatT ℝ :=
  qnormalize ⟨Real.cos (inAngle * 0.5), inX, inY, inZ⟩

/-- `exp2f`. -/
noncomputable def exp2 (t : ℝ) : ℝ := (2 : ℝ) ^ t

/-! ### The gravity-sample bounding box of `Motion::Update` -/

/-- One iteration of the bounding-box loop in `Motion::Update`
(lines 445-472 of the source), reproduced statement by statement.  Note that
the final `if` of the source tests `thisSample.y < gravityMin.y` **again**
(after `gravityMin.y` may already have been lowered) and then assigns
`gravityMin.z` — this is the loop exactly as written, including that slip. -/
def boxStep {α : Type} [LinearOrder α] (mm : Vec3 α × Vec3 α) (s : Vec3 α) :
    Vec3 α × Vec3 α :=
  let gmin := mm.1
  let gmax := mm.2
  let newMax : Vec3 α :=
    ⟨if s.x > gmax.x then s.x else gmax.x,
     if s.y > gmax.y then s.y else gmax.y,
     if s.z > gmax.z then s.z else gmax.z⟩
  let minx := if s.x < gmin.x then s.x else gmin.x
  let miny := if s.y < gmin.y then s.y else gmin.y
  let minz := if s.y < miny then s.z else gmin.z
  (⟨minx, miny, minz⟩, newMax)

/-- The bounding box `Motion::Update` computes over the ring buffer: start from
the newest sample `samples lastIdx` and run `boxStep` for
`idx = 1 … numGravSamples - 1` over `samples ((lastIdx + idx) % 10)`. -/
def gravBox {α : Type} [LinearOrder α] (samples : Fin 10 → Vec3 α)
    (lastIdx : Fin 10) (numGravSamples : ℕ) : Vec3 α × Vec3 α :=
  (List.range' 1 (numGravSamples - 1)).foldl
    (fun mm idx => boxStep mm (samples ⟨(lastIdx.val + idx) % 10, Nat.mod_lt _ (by norm_num)⟩))
    (samples lastIdx, samples lastIdx)

/-- The gravity-direction estimate of the steady branch:
`-(boxCenter.Normalized())`. -/
noncomputable def gravityDirOf (center : Vec3 ℝ) : Vec3 ℝ :=
  negV (vnormalize center)

/-- The error angle of the steady branch, exactly as in line 482 of the
source: `acos((0,-1,0) · gravityDirection) * 180 / π`. -/
noncomputable def errorAngleOf (center : Vec3 ℝ) : ℝ :=
  Real.arccos (dotV ⟨0, -1, 0⟩ (gravityDirOf center)) * 180 / Real.pi

/-- The angle between two direction vectors, via dot product and arccos,
expressed in degrees (the spec's description of `errorAngle`). -/
noncomputable def angleBetweenDeg (u v : Vec3 ℝ) : ℝ :=
  Real.arccos (dotV u v) * 180 / Real.pi

/-- The orientation's current implied "down" direction, in the controller's
local frame: `Vec(0,-1,0) * Quaternion.Inverse()` (the `expectedGravity` of
line 481 of the source). -/
noncomputable def impliedDown (q : QuatT ℝ) : Vec3 ℝ :=
  rotV ⟨0, -1, 0⟩ (qinv q)

/-! ### `GamepadMotionHelpers::Motion` -/

/-- State of `GamepadMotionHelpers::Motion`.  `GravDirectionSamples` is the
10-slot ring buffer of world-frame accelerometer samples. -/
structure MotionState where
  Quaternion : QuatT ℝ
  Accel : Vec3 ℝ
  Grav : Vec3 ℝ
  GravDirectionSamples : Fin 10 → Vec3 ℝ
  LastGravityIdx : Fin 10
  NumGravDirectionSamplesCounted : ℕ
  TimeCorrecting : ℝ

/-- `Motion::Reset` / the state after construction: identity orientation,
zero vectors, zero-initialised sample buffer, `LastGravityIdx = 9`. -/
def motionInit : MotionState :=
  { Quaternion := qid, Accel := ⟨0, 0, 0⟩, Grav := ⟨0, 0, 0⟩,
    GravDirectionSamples := fun _ => ⟨0, 0, 0⟩, LastGravityIdx := ⟨9, by norm_num⟩,
    NumGravDirectionSamplesCounted := 0, TimeCorrecting := 0 }

/-- `Motion::Update`, transcribed line by line from the source
(lines 418-524). -/
noncomputable def motionUpdate (m : MotionState)
    (inGyroX inGyroY inGyroZ inAccelX inAccelY inAccelZ gravityLength deltaTime : ℝ) :
    MotionState :=
  let axis : Vec3 ℝ := ⟨inGyroX, inGyroY, inGyroZ⟩
  let accel : Vec3 ℝ := ⟨inAccelX, inAccelY, inAccelZ⟩
  let angle := vlen axis * Real.pi / 180 * deltaTime
  let rotation := angleAxis angle axis.x axis.y axis.z
  let q1 := qmul m.Quaternion rotation
  let accelMagnitude := vlen accel
  if accelMagnitude > 0 then
    let lastIdx : Fin 10 := ⟨(m.LastGravityIdx.val + 9) % 10, Nat.mod_lt _ (by norm_num)⟩
    let absoluteAccel := rotV accel q1
    let samples := Function.update m.GravDirectionSamples lastIdx absoluteAccel
    let counted := m.NumGravDirectionSamplesCounted + 1
    let numGravSamples := if counted < 10 then counted else 10
    let box := gravBox samples lastIdx numGravSamples
    let gravityMin := box.1
    let gravityMax := box.2
    let gravityBoxSize := subV gravityMax gravityMin
    if gravityBoxSize.x ≤ 0.05 ∧ gravityBoxSize.y ≤ 0.05 ∧ gravityBoxSize.z ≤ 0.05 then
      let center := addV gravityMin (smulV gravityBoxSize 0.5)
      let gravityDirection := gravityDirOf center
      let errorAngle := errorAngleOf center
      let flattened := vnormalize (crossV gravityDirection ⟨0, -1, 0⟩)
      if errorAngle > 0 then
        let timeCorrecting := m.TimeCorrecting + deltaTime
        let confidentSmoothCorrect0 := errorAngle * (1 - exp2 (-deltaTime * 4))
        let confidentSmoothCorrect :=
          if timeCorrecting < 0.25 then confidentSmoothCorrect0 * (timeCorrecting / 0.25)
          else confidentSmoothCorrect0
        let q2 := qmul (angleAxis (confidentSmoothCorrect * Real.pi / 180)
                          flattened.x flattened.y flattened.z) q1
        let grav := rotV ⟨0, -gravityLength, 0⟩ (qinv q2)
        { Quaternion := qnormalize q2, Accel := addV accel grav, Grav := grav,
          GravDirectionSamples := samples, LastGravityIdx := lastIdx,
          NumGravDirectionSamplesCounted := counted, TimeCorrecting := timeCorrecting }
      else
        let grav := rotV ⟨0, -gravityLength, 0⟩ (qinv q1)
        { Quaternion := qnormalize q1, Accel := addV accel grav, Grav := grav,
          GravDirectionSamples := samples, LastGravityIdx := lastIdx,
          NumGravDirectionSamplesCounted := counted, TimeCorrecting := 0 }
    else
      let grav := rotV ⟨0, -gravityLength, 0⟩ (qinv q1)
      { Quaternion := qnormalize q1, Accel := addV accel grav, Grav := grav,
        GravDirectionSamples := samples, LastGravityIdx := lastIdx,
        NumGravDirectionSamplesCounted := counted, TimeCorrecting := 0 }
  else
    { Quaternion := qnormalize q1, Accel := ⟨0, 0, 0⟩, Grav := m.Grav,
      GravDirectionSamples := m.GravDirectionSamples, LastGravityIdx := m.LastGravityIdx,
      NumGravDirectionSamplesCounted := m.NumGravDirectionSamplesCounted, TimeCorrecting := 0 }

/-! ### `GamepadMotionHelpers::SensorMinMaxWindow` -/

/-- `GamepadMotionHelpers::SensorMinMaxWindow`. -/
structure MinMaxWindow (α : Type) where
  MinGyro : Vec3 α
  MaxGyro : Vec3 α
  MinAccel : Vec3 α
  MaxAccel : Vec3 α
  NumSamples : ℕ
  TimeSampled : α
deriving DecidableEq, Repr

/-- A freshly constructed window (`SensorMinMaxWindow()` calls `Reset(0)`;
the min/max vectors are default-constructed to zero). -/
def smwInit {α : Type} [LinearOrderedField α] : MinMaxWindow α :=
  ⟨⟨0, 0, 0⟩, ⟨0, 0, 0⟩, ⟨0, 0, 0⟩, ⟨0, 0, 0⟩, 0, 0⟩

/-- `SensorMinMaxWindow::Reset(remainder)`. -/
def smwReset {α : Type} (w : MinMaxWindow α) (remainder : α) : MinMaxWindow α :=
  { w with NumSamples := 0, TimeSampled := remainder }

/-- The `if (v > max) max = v;` arm of the per-axis update. -/
def hiUpd {α : Type} [LinearOrder α] (curMax v : α) : α :=
  if v > curMax then v else curMax

/-- The `else if (v < min) min = v;` arm of the per-axis update (the min is
only examined when the max test failed). -/
def loUpd {α : Type} [LinearOrder α] (curMax curMin v : α) : α :=
  if v > curMax then curMin else if v < curMin then v else curMin

/-- `SensorMinMaxWindow::AddSample`. -/
def smwAddSample {α : Type} [LinearOrderedField α] (w : MinMaxWindow α)
    (inGyro inAccel : Vec3 α) (deltaTime : α) : MinMaxWindow α :=
  if w.NumSamples = 0 then
    { MinGyro := inGyro, MaxGyro := inGyro, MinAccel := inAccel, MaxAccel := inAccel,
      NumSamples := 1, TimeSampled := w.TimeSampled + deltaTime }
  else
    { MinGyro := ⟨loUpd w.MaxGyro.x w.MinGyro.x inGyro.x,
                  loUpd w.MaxGyro.y w.MinGyro.y inGyro.y,
                  loUpd w.MaxGyro.z w.MinGyro.z inGyro.z⟩,
      MaxGyro := ⟨hiUpd w.MaxGyro.x inGyro.x,
                  hiUpd w.MaxGyro.y inGyro.y,
                  hiUpd w.MaxGyro.z inGyro.z⟩,
      MinAccel := ⟨loUpd w.MaxAccel.x w.MinAccel.x inAccel.x,
                   loUpd w.MaxAccel.y w.MinAccel.y inAccel.y,
                   loUpd w.MaxAccel.z w.MinAccel.z inAccel.z⟩,
      MaxAccel := ⟨hiUpd w.MaxAccel.x inAccel.x,
                   hiUpd w.MaxAccel.y inAccel.y,
                   hiUpd w.MaxAccel.z inAccel.z⟩,
      NumSamples := w.NumSamples + 1, TimeSampled := w.TimeSampled + deltaTime }

/-- `SensorMinMaxWindow::GetMedianGyro`: `(Max + Min) * 0.5`. -/
def smwMedianGyro {α : Type} [LinearOrderedField α] (w : MinMaxWindow α) : Vec3 α :=
  smulV (addV w.MaxGyro w.MinGyro) (1 / 2)

/-! ### `GamepadMotionHelpers::AutoCalibration` -/

/-- The six adaptive floors `MinDeltaGyroX … MinDeltaAccelZ`. -/
structure Floors (α : Type) where
  gx : α
  gy : α
  gz : α
  ax : α
  ay : α
  az : α
deriving DecidableEq, Repr

/-- State of `GamepadMotionHelpers::AutoCalibration` (the calibration-data
pointer is threaded explicitly through `autoCalAddSample`; the façade always
points it at its own `GyroCalibration`). -/
structure AutoCalState (α : Type) where
  w0 : MinMaxWindow α
  w1 : MinMaxWindow α
  floors : Floors α
  RecalibrateThreshold : α
deriving DecidableEq, Repr

/-- The constructed `AutoCalibration`: floors at 10, threshold at 1, the two
windows phase-staggered (`TimeSampled = MinAutoWindowTime * (-Idx / 2)`,
i.e. 0 and −1/2). -/
def autoCalInit {α : Type} [LinearOrderedField α] : AutoCalState α :=
  { w0 := smwInit, w1 := { smwInit with TimeSampled := -(1 / 2) },
    floors := ⟨10, 10, 10, 10, 10, 10⟩, RecalibrateThreshold := 1 }

/-- The per-tick climb of the six floors: `MinDelta... += MinClimbRate * dt`
with `MinClimbRate = 0.5`. -/
def floorsClimb {α : Type} [LinearOrderedField α] (fl : Floors α) (deltaTime : α) :
    Floors α :=
  ⟨fl.gx + 1 / 2 * deltaTime, fl.gy + 1 / 2 * deltaTime, fl.gz + 1 / 2 * deltaTime,
   fl.ax + 1 / 2 * deltaTime, fl.ay + 1 / 2 * deltaTime, fl.az + 1 / 2 * deltaTime⟩

/-- The per-tick climb of `RecalibrateThreshold`:
`+= RecalibrateClimbRate * dt`, capped at `MaxRecalibrateThreshold = 1.5`. -/
def rtClimb {α : Type} [LinearOrderedField α] (rt deltaTime : α) : α :=
  let r := rt + 1 / 2 * deltaTime
  if r > 3 / 2 then 3 / 2 else r

/-- Lowering the floors to a mature window's spans:
`if (delta < MinDelta...) MinDelta... = delta` for all six axes. -/
def floorsLower {α : Type} [LinearOrder α] (fl : Floors α) (gyroDelta accelDelta : Vec3 α) :
    Floors α :=
  ⟨if gyroDelta.x < fl.gx then gyroDelta.x else fl.gx,
   if gyroDelta.y < fl.gy then gyroDelta.y else fl.gy,
   if gyroDelta.z < fl.gz then gyroDelta.z else fl.gz,
   if accelDelta.x < fl.ax then accelDelta.x else fl.ax,
   if accelDelta.y < fl.ay then accelDelta.y else fl.ay,
   if accelDelta.z < fl.az then accelDelta.z else fl.az⟩

/-- The recalibration trigger of `AutoCalibration::AddSample`, exactly as in
lines 657-662 of the source: note that all three gyro comparisons use
`gyroDelta.x` and all three accel comparisons use `accelDelta.x`. -/
def fireTest {α : Type} [LinearOrderedField α] (gyroDelta accelDelta : Vec3 α)
    (fl : Floors α) (rt : α) : Bool :=
  decide (gyroDelta.x < fl.gx * rt) && decide (gyroDelta.x < fl.gy * rt) &&
  decide (gyroDelta.x < fl.gz * rt) && decide (accelDelta.x < fl.ax * rt) &&
  decide (accelDelta.x < fl.ay * rt) && decide (accelDelta.x < fl.az * rt)

/-- Result of processing one window inside `AutoCalibration::AddSample`. -/
structure WindowStepOut (α : Type) where
  window : MinMaxWindow α
  floors : Floors α
  rt : α
  gc : GyroCalib α
  fired : Bool
deriving DecidableEq, Repr

/-- One iteration of the window loop in `AutoCalibration::AddSample`
(lines 636-695): add the sample; bail out while the window is immature;
otherwise lower the floors to the spans, test the trigger, on fire drop the
threshold (floored at 1) and overwrite the calibration store with the
median-gyro estimate and midpoint accel magnitude with `NumSamples = 1`,
then reset the window keeping the two windows staggered.  `sqrtF` stands for
`sqrtf` (the accel-magnitude length); it feeds only the stored
`AccelMagnitude`, nothing else. -/
def windowStep {α : Type} [LinearOrderedField α] (sqrtF : α → α) (fl : Floors α)
    (rt : α) (gc : GyroCalib α) (w other : MinMaxWindow α)
    (inGyro inAccel : Vec3 α) (deltaTime : α) : WindowStepOut α :=
  let w1 := smwAddSample w inGyro inAccel deltaTime
  if w1.NumSamples < 5 ∨ w1.TimeSampled < 1 then
    ⟨w1, fl, rt, gc, false⟩
  else
    let gyroDelta := subV w1.MaxGyro w1.MinGyro
    let accelDelta := subV w1.MaxAccel w1.MinAccel
    let fl1 := floorsLower fl gyroDelta accelDelta
    let fires := fireTest gyroDelta accelDelta fl1 rt
    let rt1 := if fires then (let r := rt - 1 / 4; if r < 1 then 1 else r) else rt
    let gc1 :=
      if fires then
        let calibratedGyro := smwMedianGyro w1
        let s := addV w1.MaxAccel w1.MinAccel
        { X := calibratedGyro.x, Y := calibratedGyro.y, Z := calibratedGyro.z,
          AccelMagnitude := sqrtF (dotV s s) * (1 / 2), NumSamples := 1 }
      else gc
    let w2 :=
      if other.TimeSampled + deltaTime ≥ 1 then smwReset w1 (1 / 2)
      else smwReset w1 (other.TimeSampled - 1 / 2)
    ⟨w2, fl1, rt1, gc1, fires⟩

/-- `AutoCalibration::AddSample`: climb the floors and the threshold, then
process window 0 (its "other" is the untouched window 1) and window 1 (its
"other" is the already-updated window 0).  Returns the new state, the new
calibration store and whether a recalibration fired. -/
def autoCalAddSample {α : Type} [LinearOrderedField α] (sqrtF : α → α)
    (s : AutoCalState α) (gc : GyroCalib α) (inGyro inAccel : Vec3 α)
    (deltaTime : α) : AutoCalState α × GyroCalib α × Bool :=
  let fl0 := floorsClimb s.floors deltaTime
  let rt0 := rtClimb s.RecalibrateThreshold deltaTime
  let o0 := windowStep sqrtF fl0 rt0 gc s.w0 s.w1 inGyro inAccel deltaTime
  let o1 := windowStep sqrtF o0.floors o0.rt o0.gc s.w1 o0.window inGyro inAccel deltaTime
  (⟨o0.window, o1.window, o1.floors, o1.rt⟩, o1.gc, o0.fired || o1.fired)

/-! ### The façade (`class GamepadMotion`) -/

/-- `enum class CalibrationMode`. -/
inductive CalibrationMode where
  | Basic : CalibrationMode
  | Auto : CalibrationMode
deriving DecidableEq, Repr

/-- State of the `GamepadMotion` façade. -/
structure GMState where
  Gyro : Vec3 ℝ
  RawAccel : Vec3 ℝ
  MotionS : MotionState
  GyroCalibration : GyroCalib ℝ
  AutoCalS : AutoCalState ℝ
  Mode : CalibrationMode
  IsCalibrating : Bool

/-- The constructed `GamepadMotion`: not calibrating, Basic mode, everything
reset. -/
noncomputable def gamepadMotionInit : GMState :=
  { Gyro := ⟨0, 0, 0⟩, RawAccel := ⟨0, 0, 0⟩, MotionS := motionInit,
    GyroCalibration := gcInit, AutoCalS := autoCalInit,
    Mode := CalibrationMode.Basic, IsCalibrating := false }

/-- `GamepadMotion::ProcessMotion`: feed the active calibration strategy,
compute the calibrated sensor (which **overwrites** the raw accelerometer
magnitude with the calibration store's mean accel magnitude), subtract the
gyro offsets, run `Motion::Update`, and cache the corrected gyro and raw
accel. -/
noncomputable def processMotion (s : GMState)
    (gyroX gyroY gyroZ accelX accelY accelZ deltaTime : ℝ) : GMState :=
  let calib :=
    match s.Mode with
    | CalibrationMode.Basic =>
        if s.IsCalibrating then
          let accelMagnitude0 := Real.sqrt (accelX * accelX + accelY * accelY + accelZ * accelZ)
          (pushSensorSamples s.GyroCalibration gyroX gyroY gyroZ accelMagnitude0, s.AutoCalS)
        else (s.GyroCalibration, s.AutoCalS)
    | CalibrationMode.Auto =>
        let r := autoCalAddSample Real.sqrt s.AutoCalS s.GyroCalibration
                   ⟨gyroX, gyroY, gyroZ⟩ ⟨accelX, accelY, accelZ⟩ deltaTime
        (r.2.1, r.1)
  let sens := getCalibratedSensor calib.1
  let gyroX1 := gyroX - sens.1.x
  let gyroY1 := gyroY - sens.1.y
  let gyroZ1 := gyroZ - sens.1.z
  let m1 := motionUpdate s.MotionS gyroX1 gyroY1 gyroZ1 accelX accelY accelZ sens.2 deltaTime
  { Gyro := ⟨gyroX1, gyroY1, gyroZ1⟩, RawAccel := ⟨accelX, accelY, accelZ⟩,
    MotionS := m1, GyroCalibration := calib.1, AutoCalS := calib.2,
    Mode := s.Mode, IsCalibrating := s.IsCalibrating }

/-- `GamepadMotion::ResetContinuousCalibration`. -/
noncomputable def gmResetContinuousCalibration (s : GMState) : GMState :=
  { s with GyroCalibration := gcInit }

/-- `GamepadMotion::GetCalibrationOffset`. -/
noncomputable def gmGetCalibrationOffset (s : GMState) : Vec3 ℝ :=
  (getCalibratedSensor s.GyroCalibration).1

/-- `GamepadMotion::SetCalibrationOffset`. -/
noncomputable def gmSetCalibrationOffset (s : GMState) (xOffset yOffset zOffset : ℝ)
    (weight : ℤ) : GMState :=
  { s with GyroCalibration := setCalibrationOffset s.GyroCalibration xOffset yOffset zOffset weight }

/-- `GamepadMotion::SetCalibrationMode`. -/
def gmSetCalibrationMode (s : GMState) (calibrationMode : CalibrationMode) : GMState :=
  { s with Mode := calibrationMode }

/-! ### Concrete states and runs used by individual theorems -/

/-- Quaternion norm. -/
noncomputable def quatNorm (q : QuatT ℝ) : ℝ := Real.sqrt (quatNormSq q)

/-- The world-frame down direction `(0, -1, 0)`. -/
def vdown : Vec3 ℝ := ⟨0, -1, 0⟩

/-- The zero vector. -/
def vzero : Vec3 ℝ := ⟨0, 0, 0⟩

/-- One tick of the C4 scenario: `ProcessMotion(0,0,0, 0,-1,0, 1/60)`. -/
noncomputable def c4Tick (s : GMState) : GMState :=
  processMotion s 0 0 0 0 (-1) 0 (1 / 60)

/-- `n` consecutive C4 ticks from a freshly constructed `GamepadMotion`. -/
noncomputable def c4Run (n : ℕ) : GMState :=
  c4Tick^[n] gamepadMotionInit

/-- Ring-buffer contents exercising the bounding-box loop: the newest sample
(slot 0) is `(0,0,0)`, the next-oldest (slot 1) is `(0,0,-1)`. -/
def c2Samples : Fin 10 → Vec3 ℚ := fun i =>
  if i.val = 0 then ⟨0, 0, 0⟩ else if i.val = 1 then ⟨0, 0, -1⟩ else ⟨0, 0, 0⟩

/-- Slot index 0 (the newest sample) for the C2 scenario. -/
def c2Idx : Fin 10 := ⟨0, by norm_num⟩

/-- Exact stand-in for `sqrtf` at `ℚ` in auto-calibration runs.  It feeds only
the `AccelMagnitude` scratch value written to the calibration store on fire,
which none of the properties proved below reads. -/
def qSqrtStub : ℚ → ℚ := fun q => q

/-- Four auto-calibration inputs at 4 Hz (dt = 1/4): gyro still except for a
single large y-axis spike (with small x/z wiggle) on the second sample; accel
near-constant around `(1,1,1)`. -/
def c3Inputs : List (Vec3 ℚ × Vec3 ℚ × ℚ) :=
  [(⟨0, 0, 0⟩, ⟨1, 1, 1⟩, 1 / 4),
   (⟨1 / 8, 100, 1 / 8⟩, ⟨9 / 8, 9 / 8, 9 / 8⟩, 1 / 4),
   (⟨0, 0, 0⟩, ⟨1, 1, 1⟩, 1 / 4),
   (⟨0, 0, 0⟩, ⟨1, 1, 1⟩, 1 / 4)]

/-- Fold `AutoCalibration::AddSample` over a list of (gyro, accel, dt)
inputs, starting from the freshly constructed auto-calibrator and a zeroed
calibration store; also tracks whether any call fired. -/
def autoCalRun (l : List (Vec3 ℚ × Vec3 ℚ × ℚ)) :
    AutoCalState ℚ × GyroCalib ℚ × Bool :=
  l.foldl
    (fun acc inp =>
      let r := autoCalAddSample qSqrtStub acc.1 acc.2.1 inp.1 inp.2.1 inp.2.2
      ⟨r.1, r.2.1, r.2.2⟩)
    (autoCalInit, gcInit, false)

/-- The auto-calibrator state reached after the four `c3Inputs` samples. -/
def c3S4 : AutoCalState ℚ × GyroCalib ℚ × Bool := autoCalRun c3Inputs

/-- Window 0 after the fifth sample `(0,0,0) / (1,1,1) / dt 1/4` is added. -/
def c3W5 : MinMaxWindow ℚ := smwAddSample c3S4.1.w0 ⟨0, 0, 0⟩ ⟨1, 1, 1⟩ (1 / 4)

/-- The window-0 step of the fifth `AddSample` call (this is definitionally
the first window step `autoCalAddSample` performs on that call). -/
def c3Out5 : WindowStepOut ℚ :=
  windowStep qSqrtStub (floorsClimb c3S4.1.floors (1 / 4))
    (rtClimb c3S4.1.RecalibrateThreshold (1 / 4)) c3S4.2.1 c3S4.1.w0 c3S4.1.w1
    ⟨0, 0, 0⟩ ⟨1, 1, 1⟩ (1 / 4)

/-- A façade state whose calibration store holds two accumulated samples. -/
noncomputable def gmC6Wit : GMState :=
  { gamepadMotionInit with GyroCalibration := ⟨4, 6, 8, 0, 2⟩ }

/-- A motion state with the unit orientation `(3/5, 4/5, 0, 0)`. -/
noncomputable def mC7Wit : MotionState :=
  { motionInit with Quaternion := ⟨3 / 5, 4 / 5, 0, 0⟩ }

/-- A motion state with the unit orientation `(-1, 0, 0, 0)` (the antipodal
representation of the identity rotation). -/
noncomputable def mC7Neg : MotionState :=
  { motionInit with Quaternion := ⟨-1, 0, 0, 0⟩ }

/-- A one-element input list (gyro and accel zero, dt = 1). -/
def c9WitList : List (Vec3 ℚ × Vec3 ℚ × ℚ) := [(⟨0, 0, 0⟩, ⟨0, 0, 0⟩, 1)]

/-- The literal value of `c3S4` (checked against the definition below): after
four samples both windows hold the spike's min/max, the floors have climbed to
21/2, the threshold sits at its 3/2 cap, no recalibration has fired and the
calibration store is untouched. -/
def c3S4Lit : AutoCalState ℚ × GyroCalib ℚ × Bool :=
  ({ w0 := ⟨⟨0, 0, 0⟩, ⟨1 / 8, 100, 1 / 8⟩, ⟨1, 1, 1⟩, ⟨9 / 8, 9 / 8, 9 / 8⟩, 4, 1⟩,
     w1 := ⟨⟨0, 0, 0⟩, ⟨1 / 8, 100, 1 / 8⟩, ⟨1, 1, 1⟩, ⟨9 / 8, 9 / 8, 9 / 8⟩, 4, 1 / 2⟩,
     floors := ⟨21 / 2, 21 / 2, 21 / 2, 21 / 2, 21 / 2, 21 / 2⟩,
     RecalibrateThreshold := 3 / 2 },
   ⟨0, 0, 0, 0, 0⟩, false)

/-! ### First theorems: the calibration store round-trip -/

/-- C5: `SetCalibrationOffset(x, y, z, 10)` followed by `GetCalibrationOffset`
returns exactly `(x, y, z)`, from any prior state of the calibration store. -/
theorem setOffset_getOffset_roundtrip (gc : GyroCalib ℝ) (x y z : ℝ) :
    (getCalibratedSensor (setCalibrationOffset gc x y z 10)).1 = ⟨x, y, z⟩ := by
  simp only [setCalibrationOffset, getCalibratedSensor]
  norm_num
  exact ⟨by ring, by ring, by ring⟩

/-- C6: `GetCalibrationOffset` returns the per-axis mean (sum divided by
sample count) when the count is positive and `(0,0,0)` when the count is
≤ 0; after `ResetContinuousCalibration` it returns `(0,0,0)`. -/
theorem getCalibrationOffset_mean_or_zero :
    (∀ s : GMState, 0 < s.GyroCalibration.NumSamples →
      gmGetCalibrationOffset s =
        ⟨s.GyroCalibration.X / (s.GyroCalibration.NumSamples : ℝ),
         s.GyroCalibration.Y / (s.GyroCalibration.NumSamples : ℝ),
         s.GyroCalibration.Z / (s.GyroCalibration.NumSamples : ℝ)⟩) ∧
    (∀ s : GMState, s.GyroCalibration.NumSamples ≤ 0 →
      gmGetCalibrationOffset s = ⟨0, 0, 0⟩) ∧
    (∀ s : GMState,
      gmGetCalibrationOffset (gmResetContinuousCalibration s) = ⟨0, 0, 0⟩) := by
  refine ⟨fun s h => ?_, fun s h => ?_, fun s => ?_⟩
  · simp only [gmGetCalibrationOffset, getCalibratedSensor]
    rw [if_neg (by omega)]
    simp only [Vec3.mk.injEq]
    refine ⟨?_, ?_, ?_⟩ <;> ring
  · simp [gmGetCalibrationOffset, getCalibratedSensor, h]
  · simp [gmGetCalibrationOffset, gmResetContinuousCalibration, getCalibratedSensor, gcInit]

/-- Witness for `getCalibrationOffset_mean_or_zero` at a store holding two
samples with sums (4, 6, 8), and at the reset state. -/
theorem getCalibrationOffset_mean_or_zero_witness :
    gmGetCalibrationOffset gmC6Wit =
      ⟨gmC6Wit.GyroCalibration.X / (gmC6Wit.GyroCalibration.NumSamples : ℝ),
       gmC6Wit.GyroCalibration.Y / (gmC6Wit.GyroCalibration.NumSamples : ℝ),
       gmC6Wit.GyroCalibration.Z / (gmC6Wit.GyroCalibration.NumSamples : ℝ)⟩ ∧
    gmGetCalibrationOffset (gmResetContinuousCalibration gmC6Wit) = ⟨0, 0, 0⟩ :=
  ⟨getCalibrationOffset_mean_or_zero.1 gmC6Wit (by norm_num [gmC6Wit]),
   getCalibrationOffset_mean_or_zero.2.2 gmC6Wit⟩

/-- C10: `SetCalibrationMode` changes only the mode selector; the calibration
store, motion state, cached gyro/accel, auto-calibrator state and
is-calibrating flag are untouched. -/
theorem setCalibrationMode_frame (s : GMState) (m : CalibrationMode) :
    (gmSetCalibrationMode s m).Mode = m ∧
    (gmSetCalibrationMode s m).GyroCalibration = s.GyroCalibration ∧
    (gmSetCalibrationMode s m).MotionS = s.MotionS ∧
    (gmSetCalibrationMode s m).Gyro = s.Gyro ∧
    (gmSetCalibrationMode s m).RawAccel = s.RawAccel ∧
    (gmSetCalibrationMode s m).AutoCalS = s.AutoCalS ∧
    (gmSetCalibrationMode s m).IsCalibrating = s.IsCalibrating := by
  simp [gmSetCalibrationMode]

/-- C2: the bounding-box loop does **not** compute the component-wise minimum:
with newest sample `(0,0,0)` and previous sample `(0,0,-1)` the loop returns
min `(0,0,0)`, while the component-wise minimum of the two samples is
`(0,0,-1)` (the `gravityMin.z` update is guarded by a re-test of the `y`
comparison, so it can never execute). -/
theorem gravBox_minZ_bug :
    (gravBox c2Samples c2Idx 2).1 = ⟨0, 0, 0⟩ ∧
    (⟨min (c2Samples c2Idx).x (c2Samples ⟨1, by norm_num⟩).x,
      min (c2Samples c2Idx).y (c2Samples ⟨1, by norm_num⟩).y,
      min (c2Samples c2Idx).z (c2Samples ⟨1, by norm_num⟩).z⟩ : Vec3 ℚ) = ⟨0, 0, -1⟩ ∧
    ((⟨0, 0, 0⟩ : Vec3 ℚ) ≠ ⟨0, 0, -1⟩) := by
  decide

/-- Evaluation of the four-sample run `c3S4` to its literal value. -/
theorem c3S4_eval : c3S4 = c3S4Lit := by
  norm_num [c3S4, c3S4Lit, autoCalRun, c3Inputs, autoCalAddSample, windowStep,
    smwAddSample, floorsClimb, rtClimb, floorsLower, fireTest, smwReset, autoCalInit,
    smwInit, gcInit, subV, hiUpd, loUpd, qSqrtStub, smwMedianGyro, addV, smulV, dotV,
    Prod.ext_iff]

/-- C3 counterexample: on the fifth `AddSample` of the `c3Inputs` run, window 0
is mature and the recalibration fires (both in the windowwise step and in the
full `AddSample` return value), yet the gyro y-axis span (100) is far above
its own floor times `RecalibrateThreshold` (85/8 · 3/2), so the "each of the
six axes below its own floor" condition is violated. -/
theorem autoCal_perAxis_fire_refuted :
    (autoCalAddSample qSqrtStub c3S4.1 c3S4.2.1 ⟨0, 0, 0⟩ ⟨1, 1, 1⟩ (1 / 4)).2.2 = true ∧
    c3Out5.fired = true ∧
    ¬(c3W5.NumSamples < 5 ∨ c3W5.TimeSampled < 1) ∧
    subV c3W5.MaxGyro c3W5.MinGyro = ⟨1 / 8, 100, 1 / 8⟩ ∧
    c3Out5.floors.gy = 85 / 8 ∧
    rtClimb c3S4.1.RecalibrateThreshold (1 / 4) = 3 / 2 ∧
    ¬((subV c3W5.MaxGyro c3W5.MinGyro).y <
        c3Out5.floors.gy * rtClimb c3S4.1.RecalibrateThreshold (1 / 4)) := by
  simp only [c3Out5, c3W5]
  rw [c3S4_eval]
  norm_num [c3S4Lit, autoCalAddSample, windowStep, smwAddSample, floorsClimb, rtClimb,
    floorsLower, fireTest, smwReset, smwMedianGyro, hiUpd, loUpd, qSqrtStub, subV, addV,
    smulV, dotV]

/-- C3 amended: a mature window fires exactly when the gyro **x** span is below
each of the three gyro floors times `RecalibrateThreshold` and the accel **x**
span is below each of the three accel floors times `RecalibrateThreshold`
(the floors having just been lowered to the window's spans). -/
theorem autoCal_fire_iff_xGated (fl : Floors ℚ) (rt : ℚ) (gc : GyroCalib ℚ)
    (w other : MinMaxWindow ℚ) (inGyro inAccel : Vec3 ℚ) (dt : ℚ)
    (hmature : ¬((smwAddSample w inGyro inAccel dt).NumSamples < 5 ∨
                 (smwAddSample w inGyro inAccel dt).TimeSampled < 1)) :
    ((windowStep qSqrtStub fl rt gc w other inGyro inAccel dt).fired = true ↔
      ((subV (smwAddSample w inGyro inAccel dt).MaxGyro
             (smwAddSample w inGyro inAccel dt).MinGyro).x <
         (floorsLower fl
            (subV (smwAddSample w inGyro inAccel dt).MaxGyro
                  (smwAddSample w inGyro inAccel dt).MinGyro)
            (subV (smwAddSample w inGyro inAccel dt).MaxAccel
                  (smwAddSample w inGyro inAccel dt).MinAccel)).gx * rt ∧
       (subV (smwAddSample w inGyro inAccel dt).MaxGyro
             (smwAddSample w inGyro inAccel dt).MinGyro).x <
         (floorsLower fl
            (subV (smwAddSample w inGyro inAccel dt).MaxGyro
                  (smwAddSample w inGyro inAccel dt).MinGyro)
            (subV (smwAddSample w inGyro inAccel dt).MaxAccel
                  (smwAddSample w inGyro inAccel dt).MinAccel)).gy * rt ∧
       (subV (smwAddSample w inGyro inAccel dt).MaxGyro
             (smwAddSample w inGyro inAccel dt).MinGyro).x <
         (floorsLower fl
            (subV (smwAddSample w inGyro inAccel dt).MaxGyro
                  (smwAddSample w inGyro inAccel dt).MinGyro)
            (subV (smwAddSample w inGyro inAccel dt).MaxAccel
                  (smwAddSample w inGyro inAccel dt).MinAccel)).gz * rt ∧
       (subV (smwAddSample w inGyro inAccel dt).MaxAccel
             (smwAddSample w inGyro inAccel dt).MinAccel).x <
         (floorsLower fl
            (subV (smwAddSample w inGyro inAccel dt).MaxGyro
                  (smwAddSample w inGyro inAccel dt).MinGyro)
            (subV (smwAddSample w inGyro inAccel dt).MaxAccel
                  (smwAddSample w inGyro inAccel dt).MinAccel)).ax * rt ∧
       (subV (smwAddSample w inGyro inAccel dt).MaxAccel
             (smwAddSample w inGyro inAccel dt).MinAccel).x <
         (floorsLower fl
            (subV (smwAddSample w inGyro inAccel dt).MaxGyro
                  (smwAddSample w inGyro inAccel dt).MinGyro)
            (subV (smwAddSample w inGyro inAccel dt).MaxAccel
                  (smwAddSample w inGyro inAccel dt).MinAccel)).ay * rt ∧
       (subV (smwAddSample w inGyro inAccel dt).MaxAccel
             (smwAddSample w inGyro inAccel dt).MinAccel).x <
         (floorsLower fl
            (subV (smwAddSample w inGyro inAccel dt).MaxGyro
                  (smwAddSample w inGyro inAccel dt).MinGyro)
            (subV (smwAddSample w inGyro inAccel dt).MaxAccel
                  (smwAddSample w inGyro inAccel dt).MinAccel)).az * rt)) := by
  simp only [windowStep, if_neg hmature, fireTest]
  simp [Bool.and_eq_true, decide_eq_true_eq, and_assoc]

/-- Witness for `autoCal_fire_iff_xGated`: at the fifth sample of the
`c3Inputs` run the maturity hypothesis holds and the theorem's x-gated
condition makes the step fire. -/
theorem autoCal_fire_iff_xGated_witness :
    ¬(c3W5.NumSamples < 5 ∨ c3W5.TimeSampled < 1) ∧ c3Out5.fired = true :=
  ⟨by
    simp only [c3W5]
    rw [c3S4_eval]
    norm_num [c3S4Lit, smwAddSample, hiUpd, loUpd],
   (autoCal_fire_iff_xGated (floorsClimb c3S4.1.floors (1 / 4))
      (rtClimb c3S4.1.RecalibrateThreshold (1 / 4)) c3S4.2.1 c3S4.1.w0 c3S4.1.w1
      ⟨0, 0, 0⟩ ⟨1, 1, 1⟩ (1 / 4)
      (by
        rw [c3S4_eval]
        norm_num [c3S4Lit, smwAddSample, hiUpd, loUpd])).mpr
     (by
      rw [c3S4_eval]
      norm_num [c3S4Lit, smwAddSample, floorsClimb, rtClimb, floorsLower, hiUpd, loUpd,
        subV])⟩

/-- A fold preserves any invariant its steps preserve. -/
theorem foldl_preserves {β σ : Type} (P : σ → Prop) (f : σ → β → σ) :
    ∀ (l : List β) (init : σ), P init → (∀ s b, b ∈ l → P s → P (f s b)) →
      P (l.foldl f init)
  | [], _, h, _ => h
  | b :: l, init, h, hstep =>
    foldl_preserves P f l (f init b) (hstep init b (List.mem_cons_self b l) h)
      (fun s b2 hb2 => hstep s b2 (List.mem_cons_of_mem b hb2))

/-- A window step keeps `RecalibrateThreshold` within `[1, 3/2]`: it either
leaves it alone or drops it by 1/4 with a floor of 1. -/
theorem windowStep_rt_bounds (sqrtF : ℚ → ℚ) (fl : Floors ℚ) (rt : ℚ)
    (gc : GyroCalib ℚ) (w other : MinMaxWindow ℚ) (g a : Vec3 ℚ) (dt : ℚ)
    (h1 : 1 ≤ rt) (h2 : rt ≤ 3 / 2) :
    1 ≤ (windowStep sqrtF fl rt gc w other g a dt).rt ∧
      (windowStep sqrtF fl rt gc w other g a dt).rt ≤ 3 / 2 := by
  refine ⟨?_, ?_⟩ <;>
    (simp only [windowStep, apply_ite WindowStepOut.rt]; split_ifs <;> linarith)

/-- The climb of `RecalibrateThreshold` keeps it within `[1, 3/2]` when the
time step is nonnegative. -/
theorem rtClimb_bounds (rt dt : ℚ) (hdt : 0 ≤ dt) (h1 : 1 ≤ rt) (h2 : rt ≤ 3 / 2) :
    1 ≤ rtClimb rt dt ∧ rtClimb rt dt ≤ 3 / 2 := by
  unfold rtClimb
  dsimp only
  split <;> constructor <;> linarith

/-- `AutoCalibration::AddSample` keeps `RecalibrateThreshold` within
`[1, 3/2]` for a nonnegative time step. -/
theorem autoCalAddSample_rt_bounds (sqrtF : ℚ → ℚ) (s : AutoCalState ℚ)
    (gc : GyroCalib ℚ) (g a : Vec3 ℚ) (dt : ℚ) (hdt : 0 ≤ dt)
    (h1 : 1 ≤ s.RecalibrateThreshold) (h2 : s.RecalibrateThreshold ≤ 3 / 2) :
    1 ≤ (autoCalAddSample sqrtF s gc g a dt).1.RecalibrateThreshold ∧
      (autoCalAddSample sqrtF s gc g a dt).1.RecalibrateThreshold ≤ 3 / 2 := by
  have hc := rtClimb_bounds s.RecalibrateThreshold dt hdt h1 h2
  have hb0 := windowStep_rt_bounds sqrtF (floorsClimb s.floors dt)
    (rtClimb s.RecalibrateThreshold dt) gc s.w0 s.w1 g a dt hc.1 hc.2
  have hb1 := windowStep_rt_bounds sqrtF
    (windowStep sqrtF (floorsClimb s.floors dt) (rtClimb s.RecalibrateThreshold dt)
      gc s.w0 s.w1 g a dt).floors
    (windowStep sqrtF (floorsClimb s.floors dt) (rtClimb s.RecalibrateThreshold dt)
      gc s.w0 s.w1 g a dt).rt
    (windowStep sqrtF (floorsClimb s.floors dt) (rtClimb s.RecalibrateThreshold dt)
      gc s.w0 s.w1 g a dt).gc
    s.w1
    (windowStep sqrtF (floorsClimb s.floors dt) (rtClimb s.RecalibrateThreshold dt)
      gc s.w0 s.w1 g a dt).window
    g a dt hb0.1 hb0.2
  exact hb1

/-- C9: `RecalibrateThreshold` starts at 1 and, after any sequence of
`AddSample` calls whose time steps are all nonnegative, stays within
`[1, 3/2]` (it climbs at a fixed rate capped at 3/2 and drops by 1/4,
floored at 1, whenever a recalibration fires). -/
theorem recalibrateThreshold_invariant :
    (autoCalInit : AutoCalState ℚ).RecalibrateThreshold = 1 ∧
    ∀ l : List (Vec3 ℚ × Vec3 ℚ × ℚ), (∀ p ∈ l, 0 ≤ p.2.2) →
      1 ≤ (autoCalRun l).1.RecalibrateThreshold ∧
        (autoCalRun l).1.RecalibrateThreshold ≤ 3 / 2 := by
  refine ⟨rfl, fun l hl => ?_⟩
  exact foldl_preserves
    (fun acc => 1 ≤ acc.1.RecalibrateThreshold ∧ acc.1.RecalibrateThreshold ≤ 3 / 2)
    _ l (autoCalInit, gcInit, false) (by norm_num [autoCalInit])
    (fun acc p hp hacc =>
      autoCalAddSample_rt_bounds qSqrtStub acc.1 acc.2.1 p.1 p.2.1 p.2.2
        (hl p hp) hacc.1 hacc.2)

/-- Witness for `recalibrateThreshold_invariant` on a concrete one-sample
run. -/
theorem recalibrateThreshold_invariant_witness :
    1 ≤ (autoCalRun c9WitList).1.RecalibrateThreshold ∧
      (autoCalRun c9WitList).1.RecalibrateThreshold ≤ 3 / 2 :=
  recalibrateThreshold_invariant.2 c9WitList
    (by
      intro p hp
      simp only [c9WitList, List.mem_singleton] at hp
      subst hp
      norm_num)

/-- Conjugation by a quaternion scales dot products by the squared norm
squared (the source's `Inverse` is the plain conjugate, with no norm
division). -/
theorem rotV_dot (v w : Vec3 ℝ) (q : QuatT ℝ) :
    dotV (rotV v q) (rotV w q) = quatNormSq q * quatNormSq q * dotV v w := by
  simp only [rotV, qmul, qinv, dotV, quatNormSq]
  ring

/-- Conjugation preserves the squared norm. -/
theorem quatNormSq_qinv (q : QuatT ℝ) : quatNormSq (qinv q) = quatNormSq q := by
  simp only [qinv, quatNormSq]
  ring

/-- C1: for a unit orientation, the error angle computed in the steady branch
of `Motion::Update` (arccos of the dot product of world-down with the
box-center gravity estimate, in degrees) is exactly the angle between the
orientation's implied "down" (`(0,-1,0) * Quaternion.Inverse()`, the
`expectedGravity` of line 481) and the gravity-direction estimate expressed
in the same controller-local frame. -/
theorem errorAngle_is_angle_between (q : QuatT ℝ) (center : Vec3 ℝ)
    (hq : quatNormSq q = 1) :
    errorAngleOf center =
      angleBetweenDeg (impliedDown q) (rotV (gravityDirOf center) (qinv q)) := by
  unfold errorAngleOf angleBetweenDeg impliedDown
  rw [rotV_dot, quatNormSq_qinv, hq, one_mul, one_mul]

/-- Witness for `errorAngle_is_angle_between` at the identity orientation and
box center `(1, 2, 2)`. -/
theorem errorAngle_is_angle_between_witness :
    errorAngleOf ⟨1, 2, 2⟩ =
      angleBetweenDeg (impliedDown qid) (rotV (gravityDirOf ⟨1, 2, 2⟩) (qinv qid)) :=
  errorAngle_is_angle_between qid ⟨1, 2, 2⟩ (by norm_num [qid, quatNormSq])

/-- `Quat::Normalize` always returns a quaternion of squared norm exactly 1:
the degenerate branch returns the identity, the regular branch rescales the
vector part to squared length `1 - w²`. -/
theorem qnormalize_normSq (q : QuatT ℝ) : quatNormSq (qnormalize q) = 1 := by
  simp only [qnormalize]
  split_ifs with h
  · norm_num [qid, quatNormSq]
  · push_neg at h
    obtain ⟨ht, hl⟩ := h
    have hS : 0 < q.x * q.x + q.y * q.y + q.z * q.z := Real.sqrt_pos.mp hl
    have e1 : Real.sqrt (1 - q.w * q.w) * Real.sqrt (1 - q.w * q.w) = 1 - q.w * q.w :=
      Real.mul_self_sqrt (by linarith)
    have e2 : Real.sqrt (q.x * q.x + q.y * q.y + q.z * q.z) *
        Real.sqrt (q.x * q.x + q.y * q.y + q.z * q.z) =
        q.x * q.x + q.y * q.y + q.z * q.z :=
      Real.mul_self_sqrt (by linarith)
    simp only [quatNormSq]
    field_simp
    nlinarith [e1, e2, hS]

/-- Every branch of `Motion::Update` ends by storing a renormalised
quaternion. -/
theorem motionUpdate_quat_shape (m : MotionState)
    (gx gy gz ax ay az gl dt : ℝ) :
    ∃ q, (motionUpdate m gx gy gz ax ay az gl dt).Quaternion = qnormalize q := by
  simp only [motionUpdate]
  split_ifs <;> exact ⟨_, rfl⟩

/-- C8: after every `Motion::Update` the orientation quaternion has unit norm
(within 1e-5 — in this exact-arithmetic model the norm is exactly 1), and the
degenerate normalisation cases (non-positive target length or non-positive
vector-part length) produce the identity quaternion. -/
theorem orientation_unit_after_update :
    (∀ (m : MotionState) (gx gy gz ax ay az gl dt : ℝ),
      |quatNorm ((motionUpdate m gx gy gz ax ay az gl dt).Quaternion) - 1| ≤ 1e-5) ∧
    (∀ q : QuatT ℝ,
      (1 - q.w * q.w ≤ 0 ∨ Real.sqrt (q.x * q.x + q.y * q.y + q.z * q.z) ≤ 0) →
      qnormalize q = qid) := by
  constructor
  · intro m gx gy gz ax ay az gl dt
    obtain ⟨q, hq⟩ := motionUpdate_quat_shape m gx gy gz ax ay az gl dt
    rw [hq, quatNorm, qnormalize_normSq, Real.sqrt_one]
    norm_num
  · intro q h
    simp only [qnormalize]
    exact if_pos h

/-- Witness for `orientation_unit_after_update`: a concrete update from the
initial motion state, and the degenerate input `(2, 1, 1, 1)` (target length
`1 - 4 ≤ 0`) snapping to the identity. -/
theorem orientation_unit_after_update_witness :
    |quatNorm ((motionUpdate motionInit 1 2 3 4 5 6 1 (1 / 60)).Quaternion) - 1| ≤ 1e-5 ∧
    qnormalize ⟨2, 1, 1, 1⟩ = qid :=
  ⟨orientation_unit_after_update.1 motionInit 1 2 3 4 5 6 1 (1 / 60),
   orientation_unit_after_update.2 ⟨2, 1, 1, 1⟩ (Or.inl (by norm_num))⟩

/-- Multiplying by the identity quaternion on the right changes nothing. -/
theorem qmul_qid_right (q : QuatT ℝ) : qmul q qid = q := by
  cases q
  simp [qmul, qid]

/-- Multiplying by the identity quaternion on the left changes nothing. -/
theorem qmul_qid_left (q : QuatT ℝ) : qmul qid q = q := by
  cases q
  simp [qmul, qid]

/-- `AngleAxis` with a zero axis yields the identity quaternion (the
vector-part length is zero, so `Normalize` snaps to identity), whatever the
angle. -/
theorem angleAxis_zero_axis (inAngle : ℝ) : angleAxis inAngle 0 0 0 = qid := by
  simp only [angleAxis, qnormalize]
  rw [if_pos]
  right
  norm_num

/-- `AngleAxis` with a zero angle yields the identity quaternion
(`cos 0 = 1`, so the target length `1 - w²` is zero), whatever the axis. -/
theorem angleAxis_zero_angle (inX inY inZ : ℝ) : angleAxis 0 inX inY inZ = qid := by
  simp only [angleAxis, qnormalize]
  rw [if_pos]
  left
  norm_num

/-- `Quat::Normalize` leaves a unit quaternion with `w ≠ -1` unchanged. -/
theorem qnormalize_unit (q : QuatT ℝ) (hq : quatNormSq q = 1) (hw : q.w ≠ -1) :
    qnormalize q = q := by
  have hS : q.x * q.x + q.y * q.y + q.z * q.z = 1 - q.w * q.w := by
    simp only [quatNormSq] at hq
    linarith
  have hw2 : q.w * q.w ≤ 1 := by nlinarith [sq_nonneg q.x, sq_nonneg q.y, sq_nonneg q.z]
  by_cases hw1 : q.w = 1
  · have hzero : q.x * q.x + q.y * q.y + q.z * q.z = 0 := by rw [hS, hw1]; ring
    have hx : q.x = 0 := by nlinarith [sq_nonneg q.x, sq_nonneg q.y, sq_nonneg q.z]
    have hy : q.y = 0 := by nlinarith [sq_nonneg q.x, sq_nonneg q.y, sq_nonneg q.z]
    have hz : q.z = 0 := by nlinarith [sq_nonneg q.x, sq_nonneg q.y, sq_nonneg q.z]
    simp only [qnormalize]
    rw [if_pos (Or.inl (by rw [hw1]; norm_num))]
    cases q with
    | mk w x y z =>
      dsimp only at hw1 hx hy hz
      rw [hw1, hx, hy, hz]
      rfl
  · have hlt : q.w * q.w < 1 := by
      rcases lt_or_eq_of_le hw2 with h | h
      · exact h
      · exfalso
        have : (q.w - 1) * (q.w + 1) = 0 := by linarith [h]
        rcases mul_eq_zero.mp this with h1 | h1
        · exact hw1 (by linarith)
        · exact hw (by linarith)
    have ht : 0 < 1 - q.w * q.w := by linarith
    have hsp : 0 < Real.sqrt (q.x * q.x + q.y * q.y + q.z * q.z) :=
      Real.sqrt_pos.mpr (by rw [hS]; exact ht)
    simp only [qnormalize]
    rw [if_neg (by push_neg; constructor <;> linarith)]
    have hfix : Real.sqrt (1 - q.w * q.w) /
        Real.sqrt (q.x * q.x + q.y * q.y + q.z * q.z) = 1 := by
      rw [hS]
      exact div_self (ne_of_gt (Real.sqrt_pos.mpr ht))
    rw [hfix]
    cases q
    simp

/-- C7 counterexample: the unit orientation `(-1, 0, 0, 0)` (the antipodal
representation of the identity rotation) is **changed** by an update with
zero gyro and zero delta-time: the final renormalisation snaps it to
`(1, 0, 0, 0)`. -/
theorem update_zeroGyro_zeroDt_counterexample :
    (motionUpdate mC7Neg 0 0 0 0 0 0 0 0).Quaternion ≠ mC7Neg.Quaternion := by
  have hv : vlen ⟨0, 0, 0⟩ = 0 := by norm_num [vlen]
  simp only [motionUpdate, angleAxis_zero_axis, qmul_qid_right]
  rw [if_neg (by rw [hv]; norm_num)]
  simp only [mC7Neg, motionInit]
  simp only [qnormalize, qid]
  rw [if_pos (Or.inl (by norm_num))]
  simp [QuatT.mk.injEq]
  norm_num

/-- C7 (amended): for any **unit** orientation whose `w` component is not −1,
an update with zero gyro and zero delta-time leaves the orientation quaternion
unchanged: the incremental rotation and the gravity-correction rotation are
both the identity, and the final renormalisation is the identity on such
quaternions. -/
theorem update_zeroGyro_zeroDt_orientation (m : MotionState) (ax ay az gl : ℝ)
    (hq : quatNormSq m.Quaternion = 1) (hw : m.Quaternion.w ≠ -1) :
    (motionUpdate m 0 0 0 ax ay az gl 0).Quaternion = m.Quaternion := by
  have hexp : (1 : ℝ) - exp2 (-0 * 4) = 0 := by
    rw [show (-(0 : ℝ) * 4) = 0 by ring]
    unfold exp2
    rw [Real.rpow_zero]
    ring
  simp only [motionUpdate, angleAxis_zero_axis, qmul_qid_right, hexp, mul_zero,
    zero_mul, ite_self, zero_div, angleAxis_zero_angle, qmul_qid_left]
  split_ifs <;> exact qnormalize_unit m.Quaternion hq hw

/-- Witness for `update_zeroGyro_zeroDt_orientation` at the unit orientation
`(3/5, 4/5, 0, 0)` with accelerometer input `(1, 2, 3)`. -/
theorem update_zeroGyro_zeroDt_orientation_witness :
    (motionUpdate mC7Wit 0 0 0 1 2 3 1 0).Quaternion = mC7Wit.Quaternion :=
  update_zeroGyro_zeroDt_orientation mC7Wit 1 2 3 1
    (by norm_num [mC7Wit, motionInit, quatNormSq])
    (by norm_num [mC7Wit, motionInit])

/-- Rotating the zero vector gives the zero vector. -/
theorem rotV_zero (q : QuatT ℝ) : rotV ⟨0, 0, 0⟩ q = ⟨0, 0, 0⟩ := by
  simp only [rotV, qmul, qinv]
  norm_num

/-- Rotating by the identity quaternion changes nothing. -/
theorem rotV_qid (v : Vec3 ℝ) : rotV v qid = v := by
  cases v
  simp only [rotV, qmul, qinv, qid]
  norm_num

/-- Renormalising the identity quaternion gives the identity. -/
theorem qnormalize_qid : qnormalize qid = qid := by
  simp only [qnormalize, qid]
  rw [if_pos]
  left
  norm_num

/-- The length of `(0, -1, 0)` is 1. -/
theorem vlen_down : vlen ⟨0, -1, 0⟩ = 1 := by
  simp only [vlen]
  norm_num

/-- The length of the zero vector is 0. -/
theorem vlen_zero : vlen ⟨0, 0, 0⟩ = 0 := by
  simp only [vlen]
  norm_num

/-- Normalising the zero vector leaves it unchanged. -/
theorem vnormalize_zero : vnormalize ⟨0, 0, 0⟩ = ⟨0, 0, 0⟩ := by
  simp only [vnormalize, vlen_zero]
  norm_num

/-- The gravity-direction estimate at box center `(0, -1, 0)` is `(0, 1, 0)`. -/
theorem gravityDirOf_down : gravityDirOf ⟨0, -1, 0⟩ = ⟨0, 1, 0⟩ := by
  simp only [gravityDirOf, vnormalize, vlen_down, negV, smulV]
  norm_num

/-- The correction axis degenerates to the zero vector when the estimated
gravity direction is exactly `(0, 1, 0)`. -/
theorem flattened_degenerate :
    vnormalize (crossV (⟨0, 1, 0⟩ : Vec3 ℝ) ⟨0, -1, 0⟩) = ⟨0, 0, 0⟩ := by
  have h : crossV (⟨0, 1, 0⟩ : Vec3 ℝ) ⟨0, -1, 0⟩ = ⟨0, 0, 0⟩ := by
    simp only [crossV]
    norm_num
  rw [h, vnormalize_zero]

/-- A bounding-box step keeps the min at `(0,-1,0)` and the max in
`{(0,-1,0), (0,0,0)}` when every incoming sample is one of those two
values. -/
theorem boxStep_still (mm : Vec3 ℝ × Vec3 ℝ) (s : Vec3 ℝ)
    (hsv : s = vdown ∨ s = vzero) (h1 : mm.1 = vdown)
    (h2 : mm.2 = vdown ∨ mm.2 = vzero) :
    (boxStep mm s).1 = vdown ∧
      ((boxStep mm s).2 = vdown ∨ (boxStep mm s).2 = vzero) := by
  obtain ⟨mn, mx⟩ := mm
  dsimp only at h1 h2
  subst h1
  rcases hsv with rfl | rfl <;> rcases h2 with h2 | h2 <;> subst h2 <;>
    norm_num [boxStep, vdown, vzero]

/-- The bounding box over a buffer whose entries are all `(0,-1,0)` or
`(0,0,0)`, with the newest entry `(0,-1,0)`, has min `(0,-1,0)` and max
either `(0,-1,0)` or `(0,0,0)`. -/
theorem gravBox_still (samples : Fin 10 → Vec3 ℝ) (lastIdx : Fin 10) (n : ℕ)
    (hs : ∀ i, samples i = vdown ∨ samples i = vzero)
    (h0 : samples lastIdx = vdown) :
    (gravBox samples lastIdx n).1 = vdown ∧
      ((gravBox samples lastIdx n).2 = vdown ∨ (gravBox samples lastIdx n).2 = vzero) := by
  unfold gravBox
  exact foldl_preserves
    (fun mm => mm.1 = vdown ∧ (mm.2 = vdown ∨ mm.2 = vzero)) _
    (List.range' 1 (n - 1)) (samples lastIdx, samples lastIdx)
    ⟨h0, Or.inl h0⟩
    (fun mm idx _ hP => boxStep_still mm _ (hs _) hP.1 hP.2)

/-- Under the C4 inputs (gyro zero, accel `(0,-1,0)`, gravity length 0 as
delivered by the empty calibration store): an update keeps the orientation at
the identity, keeps every ring-buffer slot in `{(0,-1,0), (0,0,0)}`, and
produces gravity `(0,0,0)` and linear acceleration `(0,-1,0)` — in the steady
branch the correction axis `cross((0,1,0), (0,-1,0))` degenerates to zero, so
the correction rotation is the identity. -/
theorem motionUpdate_still (m : MotionState) (dt : ℝ)
    (hQ : m.Quaternion = qid)
    (hs : ∀ i, m.GravDirectionSamples i = vdown ∨ m.GravDirectionSamples i = vzero) :
    (motionUpdate m 0 0 0 0 (-1) 0 0 dt).Quaternion = qid ∧
    (∀ i, (motionUpdate m 0 0 0 0 (-1) 0 0 dt).GravDirectionSamples i = vdown ∨
          (motionUpdate m 0 0 0 0 (-1) 0 0 dt).GravDirectionSamples i = vzero) ∧
    (motionUpdate m 0 0 0 0 (-1) 0 0 dt).Grav = vzero ∧
    (motionUpdate m 0 0 0 0 (-1) 0 0 dt).Accel = vdown := by
  have hupd : ∀ i, Function.update m.GravDirectionSamples
      ⟨(m.LastGravityIdx.val + 9) % 10, Nat.mod_lt _ (by norm_num)⟩ (⟨0, -1, 0⟩ : Vec3 ℝ) i = vdown ∨
      Function.update m.GravDirectionSamples
      ⟨(m.LastGravityIdx.val + 9) % 10, Nat.mod_lt _ (by norm_num)⟩ (⟨0, -1, 0⟩ : Vec3 ℝ) i = vzero := by
    intro i
    rcases eq_or_ne i ⟨(m.LastGravityIdx.val + 9) % 10, Nat.mod_lt _ (by norm_num)⟩ with hi | hi
    · left
      rw [hi, Function.update_same]
      rfl
    · rw [Function.update_noteq hi]
      exact hs i
  have hbox := gravBox_still
    (Function.update m.GravDirectionSamples
      ⟨(m.LastGravityIdx.val + 9) % 10, Nat.mod_lt _ (by norm_num)⟩ (⟨0, -1, 0⟩ : Vec3 ℝ))
    ⟨(m.LastGravityIdx.val + 9) % 10, Nat.mod_lt _ (by norm_num)⟩
    (if m.NumGravDirectionSamplesCounted + 1 < 10 then m.NumGravDirectionSamplesCounted + 1 else 10)
    hupd (by rw [Function.update_same]; rfl)
  obtain ⟨hb1, hb2⟩ := hbox
  simp only [motionUpdate, hQ, vlen_zero, vlen_down, angleAxis_zero_axis, qmul_qid_right,
    qmul_qid_left, rotV_qid, neg_zero, rotV_zero]
  rw [if_pos (by norm_num : (1 : ℝ) > 0)]
  simp only [hb1]
  rcases hb2 with hb2 | hb2 <;> simp only [hb2]
  all_goals simp only [subV, addV, smulV, vdown, vzero]
  all_goals norm_num
  all_goals try split_ifs with he htc
  all_goals repeat' apply And.intro
  all_goals
    first
      | exact fun i => hupd i
      | simp only [gravityDirOf_down, flattened_degenerate, angleAxis_zero_axis,
          qnormalize_qid]

/-- One C4 façade tick preserves the stillness invariant: Basic mode with no
calibration samples yields zero gyro offsets and gravity length 0, and the
motion update behaves as in `motionUpdate_still`. -/
theorem c4Tick_still (s : GMState)
    (hQ : s.MotionS.Quaternion = qid)
    (hs : ∀ i, s.MotionS.GravDirectionSamples i = vdown ∨
               s.MotionS.GravDirectionSamples i = vzero)
    (hgc : s.GyroCalibration = gcInit)
    (hmode : s.Mode = CalibrationMode.Basic)
    (hcal : s.IsCalibrating = false) :
    (c4Tick s).MotionS.Quaternion = qid ∧
    (∀ i, (c4Tick s).MotionS.GravDirectionSamples i = vdown ∨
          (c4Tick s).MotionS.GravDirectionSamples i = vzero) ∧
    (c4Tick s).GyroCalibration = gcInit ∧
    (c4Tick s).Mode = CalibrationMode.Basic ∧
    (c4Tick s).IsCalibrating = false ∧
    (c4Tick s).MotionS.Grav = vzero ∧
    (c4Tick s).MotionS.Accel = vdown := by
  have hsens : getCalibratedSensor (gcInit : GyroCalib ℝ) = (⟨0, 0, 0⟩, 0) := by
    norm_num [getCalibratedSensor, gcInit]
  have hmu := motionUpdate_still s.MotionS (1 / 60) hQ hs
  simp only [c4Tick, processMotion, hmode, hgc, hcal]
  rw [if_neg Bool.false_ne_true]
  simp only [hsens, sub_zero]
  exact ⟨hmu.1, hmu.2.1, trivial, trivial, trivial, hmu.2.2.1, hmu.2.2.2⟩

/-- The stillness invariant holds after any number of C4 ticks from a freshly
constructed `GamepadMotion`. -/
theorem c4Run_still (n : ℕ) :
    (c4Run n).MotionS.Quaternion = qid ∧
    (∀ i, (c4Run n).MotionS.GravDirectionSamples i = vdown ∨
          (c4Run n).MotionS.GravDirectionSamples i = vzero) ∧
    (c4Run n).GyroCalibration = gcInit ∧
    (c4Run n).Mode = CalibrationMode.Basic ∧
    (c4Run n).IsCalibrating = false := by
  induction n with
  | zero => exact ⟨rfl, fun i => Or.inr rfl, rfl, rfl, rfl⟩
  | succ n ih =>
    have h := c4Tick_still (c4Run n) ih.1 ih.2.1 ih.2.2.1 ih.2.2.2.1 ih.2.2.2.2
    have e : c4Run (n + 1) = c4Tick (c4Run n) := by
      rw [c4Run, c4Run, Function.iterate_succ_apply']
    rw [e]
    exact ⟨h.1, h.2.1, h.2.2.1, h.2.2.2.1, h.2.2.2.2.1⟩

/-- C4 (amended): after 60 ticks of `ProcessMotion(0,0,0, 0,-1,0, 1/60)` from
a fresh `GamepadMotion`, the gravity estimate reads exactly `(0,0,0)` and the
linear acceleration exactly `(0,-1,0)`: the gravity length passed to
`Motion::Update` is the calibrated accel magnitude, which is 0 when the
calibration store holds no samples, so no gravity is ever subtracted. -/
theorem c4_gravity_and_linearAccel_after_60 :
    (c4Run 60).MotionS.Grav = ⟨0, 0, 0⟩ ∧ (c4Run 60).MotionS.Accel = ⟨0, -1, 0⟩ := by
  have h59 := c4Run_still 59
  have h := c4Tick_still (c4Run 59) h59.1 h59.2.1 h59.2.2.1 h59.2.2.2.1 h59.2.2.2.2
  have e : c4Run 60 = c4Tick (c4Run 59) := by
    simp only [c4Run]
    rw [show (60 : ℕ) = 59 + 1 from rfl, Function.iterate_succ_apply']
  rw [e]
  exact ⟨h.2.2.2.2.2.1, h.2.2.2.2.2.2⟩

/-- C4 counterexample: after the 60 ticks of the scenario the linear
acceleration is `(0,-1,0)`, which is not `(0,0,0)` — the claimed convergence
of `LinearAcceleration` to zero fails on the code. -/
theorem c4_linearAccel_not_zero :
    (c4Run 60).MotionS.Accel = ⟨0, -1, 0⟩ ∧
      ((⟨0, -1, 0⟩ : Vec3 ℝ) ≠ ⟨0, 0, 0⟩) := by
  have h59 := c4Run_still 59
  have h := c4Tick_still (c4Run 59) h59.1 h59.2.1 h59.2.2.1 h59.2.2.2.1 h59.2.2.2.2
  have e : c4Run 60 = c4Tick (c4Run 59) := by
    simp only [c4Run]
    rw [show (60 : ℕ) = 59 + 1 from rfl, Function.iterate_succ_apply']
  rw [e]
  refine ⟨h.2.2.2.2.2.2, ?_⟩
  simp only [ne_eq, Vec3.mk.injEq]
  norm_num
